import Mathlib

/-!
Verification development for the bdl-mcp-ts protocol/dispatch core.

The definitions below are a shallow embedding of the TypeScript sources:
`src/index.ts` (transport facade `handleMCP`, `isJSONRPCRequest`),
`src/mcp-server.ts` (class `MCPServer`, `zodToJsonSchema`,
`zodTypeToJsonSchema`, SSE helpers) and `src/tool-handler.ts`
(class `ToolHandler`). The zod library is third-party; the small part of
its documented semantics the sources rely on (`safeParse`, `isOptional`,
instance checks) is embedded as well. JavaScript runtime values decoded
from JSON are modelled by `JsVal`; JSON numbers are rationals.
-/

namespace BdlMcp

/-- A JavaScript value as it can appear after `JSON.parse`, extended with
`undef` for the `undefined` that arises from absent object fields. -/
inductive JsVal where
  | undef : JsVal
  | null : JsVal
  | bool : Bool → JsVal
  | num : Rat → JsVal
  | str : String → JsVal
  | arr : List JsVal → JsVal
  | obj : List (String × JsVal) → JsVal

/-- Whether a value is the JS `undefined`. -/
def JsVal.isUndef : JsVal → Bool
  | .undef => true
  | _ => false

/-- Field lookup on a JS object: absent keys read as `undefined`. -/
def lookupField : List (String × JsVal) → String → JsVal
  | [], _ => .undef
  | (k, v) :: rest, key => if k = key then v else lookupField rest key

/-- Key presence test (the JavaScript `in` operator on parsed JSON). -/
def hasKeyF : List (String × JsVal) → String → Bool
  | [], _ => false
  | (k, _) :: rest, key => if k = key then true else hasKeyF rest key

/-- Property access `v[key]` on an arbitrary JS value. Primitives box to
objects without own properties; arrays decoded from JSON carry no string
keys, so both read as `undefined`. Access on `null` or `undefined` throws
in JS; the callers below guard those cases before reading. -/
def getField : JsVal → String → JsVal
  | .obj fields, key => lookupField fields key
  | _, _ => JsVal.undef

/-- Decimal rendering of a rational, covering the JS number formatting the
embedded code can produce (all numbers in the model are integers). -/
def ratToString (q : Rat) : String :=
  if q.den = 1 then toString q.num else toString q.num ++ "/" ++ toString q.den

mutual

/-- JS string conversion of a value, as used by property keys (the `in`
operator and bracket access coerce non-symbol keys with ToString) and by
template literals. An array converts to its elements joined by commas,
so an array-valued name can coerce to a registry name. -/
def propKey : JsVal → String
  | .undef => "undefined"
  | .null => "null"
  | .bool b => if b then "true" else "false"
  | .num q => ratToString q
  | .str s => s
  | .arr xs => String.intercalate "," (propKeyParts xs)
  | .obj _ => "[object Object]"

/-- Array elements under `Array.prototype.join`: `null` and `undefined`
render as empty strings, every other element by its string conversion. -/
def propKeyParts : List JsVal → List String
  | [] => []
  | .undef :: xs => "" :: propKeyParts xs
  | .null :: xs => "" :: propKeyParts xs
  | x :: xs => propKey x :: propKeyParts xs

end

mutual

/-- Model of `JSON.stringify` (compact form): object keys keep insertion
order, keys whose value is `undefined` are dropped, `undefined` inside an
array serializes as `null`. String escaping is not modelled; no string in
the development needs it. -/
def stringify : JsVal → String
  | .undef => "null"
  | .null => "null"
  | .bool b => if b then "true" else "false"
  | .num q => ratToString q
  | .str s => "\"" ++ s ++ "\""
  | .arr xs => "[" ++ String.intercalate "," (stringifyItems xs) ++ "]"
  | .obj fs => "\x7b" ++ String.intercalate "," (stringifyFields fs) ++ "\x7d"

/-- Serialized array elements, in order. -/
def stringifyItems : List JsVal → List String
  | [] => []
  | x :: xs => stringify x :: stringifyItems xs

/-- Serialized object entries, dropping `undefined`-valued keys. -/
def stringifyFields : List (String × JsVal) → List String
  | [] => []
  | (k, v) :: rest =>
    if v.isUndef then stringifyFields rest
    else ("\"" ++ k ++ "\":" ++ stringify v) :: stringifyFields rest

end

/-- A numeric refinement attached to a zod number schema: `.int()`,
`.positive()`, `.max(n)` are the ones the registry in `tools.ts` uses. -/
inductive ZodCheck where
  | int : ZodCheck
  | positive : ZodCheck
  | max : Int → ZodCheck
deriving Repr, DecidableEq

/-- The zod schema kinds occurring in or recognized by the translator in
`mcp-server.ts`: optional and nullable wrappers, unions, string enums,
strings, numbers with checks, booleans, arrays, nested objects, and
`other` for any unrecognized kind. Leaf kinds carry the `.describe`
description; a description set on an optional wrapper sits on the wrapper
itself, as in zod. -/
inductive ZodType where
  | string : Option String → ZodType
  | number : List ZodCheck → Option String → ZodType
  | boolean : Option String → ZodType
  | enum : List String → Option String → ZodType
  | union : List ZodType → ZodType
  | array : ZodType → Option String → ZodType
  | optional : ZodType → Option String → ZodType
  | nullable : ZodType → Option String → ZodType
  | object : List (String × ZodType) → ZodType
  | other : ZodType

/-- Evaluation of one numeric check against a number. -/
def runCheck : ZodCheck → Rat → Bool
  | .int, q => q.den = 1
  | .positive, q => 0 < q
  | .max n, q => q ≤ (n : Rat)

/-- Array elements parsed in order with the element parser, failing on
the first bad element. -/
def parseItemsWith (f : JsVal → Except String JsVal) :
    List JsVal → Except String (List JsVal)
  | [] => .ok []
  | x :: xs =>
    match f x with
    | .error e => .error e
    | .ok v =>
      match parseItemsWith f xs with
      | .error e => .error e
      | .ok vs => .ok (v :: vs)

mutual

/-- Model of zod `safeParse`, returning the parsed (stripped) data or a
first-failure diagnostic. Zod aggregates all issues into one message;
the model keeps the first, which has the same success semantics. Unknown
object keys are stripped, per the default object mode. -/
def safeParse : ZodType → JsVal → Except String JsVal
  | .string _, v =>
    match v with
    | .str s => .ok (.str s)
    | .undef => .error "Required"
    | _ => .error "Expected string"
  | .number checks _, v =>
    match v with
    | .num q => if checks.all (fun c => runCheck c q) then .ok (.num q)
                else .error "Invalid number"
    | .undef => .error "Required"
    | _ => .error "Expected number"
  | .boolean _, v =>
    match v with
    | .bool b => .ok (.bool b)
    | .undef => .error "Required"
    | _ => .error "Expected boolean"
  | .enum values _, v =>
    match v with
    | .str s => if values.contains s then .ok (.str s)
                else .error "Invalid enum value"
    | .undef => .error "Required"
    | _ => .error "Expected string"
  | .union options, v => parseFirst options v
  | .array t _, v =>
    match v with
    | .arr xs => (parseItemsWith (fun x => safeParse t x) xs).map .arr
    | .undef => .error "Required"
    | _ => .error "Expected array"
  | .optional t _, v =>
    match v with
    | .undef => .ok .undef
    | v => safeParse t v
  | .nullable t _, v =>
    match v with
    | .null => .ok .null
    | v => safeParse t v
  | .object shape, v =>
    match v with
    | .obj fields => (parseShape shape fields).map .obj
    | .undef => .error "Required"
    | _ => .error "Expected object"
  | .other, v => .ok v

/-- Union semantics: options are tried in declaration order, the first
success wins. -/
def parseFirst : List ZodType → JsVal → Except String JsVal
  | [], _ => .error "Invalid union input"
  | t :: rest, v =>
    match safeParse t v with
    | .ok r => .ok r
    | .error _ => parseFirst rest v

/-- Object shape parsing: each declared field is parsed against the looked
up value (absent keys read as `undefined`); a key enters the output when
its parsed value is defined or the key was present in the input. -/
def parseShape : List (String × ZodType) → List (String × JsVal) →
    Except String (List (String × JsVal))
  | [], _ => .ok []
  | (k, t) :: rest, fields =>
    match safeParse t (lookupField fields k) with
    | .error e => .error (k ++ ": " ++ e)
    | .ok v =>
      match parseShape rest fields with
      | .error e => .error e
      | .ok vs =>
        .ok (if !v.isUndef || hasKeyF fields k then (k, v) :: vs else vs)

end

/-- Model of zod `isOptional`: whether the schema accepts `undefined`. -/
def ZodType.isOptional (t : ZodType) : Bool :=
  match safeParse t .undef with
  | .ok _ => true
  | .error _ => false

/-- Description key of a sub-document: present exactly when the zod type
carries a description (an `undefined` description key disappears in the
serialized document). -/
def descField : Option String → List (String × JsVal)
  | some d => [("description", .str d)]
  | none => []

/-- The `required` list accumulated by the loop in `zodToJsonSchema`:
field names pushed in declaration order when `isOptional` is false. -/
def requiredOfShape : List (String × ZodType) → List String
  | [] => []
  | (k, t) :: rest =>
    if t.isOptional then requiredOfShape rest else k :: requiredOfShape rest

/-- Assembly of the object discovery document returned by
`zodToJsonSchema`: fixed `type`, the `properties` map, and `required`
only when the list is non-empty. -/
def objectDoc (props : List (String × JsVal)) (required : List String) : JsVal :=
  .obj ([("type", .str "object"), ("properties", .obj props)]
    ++ (if required.length > 0
        then [("required", .arr (required.map .str))] else []))

mutual

/-- Embedding of `zodTypeToJsonSchema` from `mcp-server.ts`: translation
of one zod type into a JSON-schema sub-document, by kind, in the exact
branch order of the source (optional, nullable, union, enum, string,
number, boolean, array, object, fallback). The object branch is the
body of `zodToJsonSchema`, which is also exposed as the named function
below. -/
def zodTypeToJsonSchema : ZodType → JsVal
  | .optional t _ => zodTypeToJsonSchema t
  | .nullable t _ => zodTypeToJsonSchema t
  | .union options => .obj [("oneOf", .arr (docsOfTypes options))]
  | .enum values d =>
    .obj ([("type", .str "string"), ("enum", .arr (values.map .str))] ++ descField d)
  | .string d => .obj ([("type", .str "string")] ++ descField d)
  | .number checks d =>
    .obj ([("type", .str (if checks.contains .int then "integer" else "number"))]
      ++ descField d)
  | .boolean d => .obj ([("type", .str "boolean")] ++ descField d)
  | .array t d =>
    .obj ([("type", .str "array"), ("items", zodTypeToJsonSchema t)] ++ descField d)
  | .object shape => objectDoc (propsOfShape shape) (requiredOfShape shape)
  | .other => .obj [("type", .str "string")]

/-- Union alternatives translated in declaration order. -/
def docsOfTypes : List ZodType → List JsVal
  | [] => []
  | t :: rest => zodTypeToJsonSchema t :: docsOfTypes rest

/-- Property sub-documents of an object shape, in declaration order. -/
def propsOfShape : List (String × ZodType) → List (String × JsVal)
  | [] => []
  | (k, t) :: rest => (k, zodTypeToJsonSchema t) :: propsOfShape rest

end

/-- Embedding of `zodToJsonSchema` from `mcp-server.ts`: discovery
document of an object schema, with `properties` holding the translated
fields in declaration order and `required` collecting the keys whose
type is not optional, omitted when that list is empty. -/
def zodToJsonSchema (shape : List (String × ZodType)) : JsVal :=
  objectDoc (propsOfShape shape) (requiredOfShape shape)

/-- One registry entry of `tools.ts`: tool name, description, and the
shape of the `z.object` input schema. -/
structure ToolSpec where
  name : String
  description : String
  inputSchema : List (String × ZodType)

/-- The shared schema `languageSchema` of `tools.ts`. -/
def languageSchema : ZodType :=
  .optional (.enum ["pl", "en"] none) (some "Response language (pl or en)")

/-- The shared schema `sortOrderSchema` of `tools.ts`. -/
def sortOrderSchema : ZodType :=
  .optional (.enum ["Id", "-Id", "Name", "-Name"] none) (some "Sort order")

/-- The shared schema `pageSchema` of `tools.ts`. -/
def pageSchema : ZodType :=
  .optional (.number [.int, .positive] none) (some "Page number")

/-- The shared schema `pageSizeSchema` of `tools.ts`. -/
def pageSizeSchema : ZodType :=
  .optional (.number [.int, .positive, .max 100] none)
    (some "Number of results per page (max 100)")

/-- The tool registry of `tools.ts`, in declaration order. -/
def tools : List ToolSpec := [
  { name := "get_aggregates",
    description := "Get list of aggregation levels from BDL API. Aggregation levels define territorial groupings (e.g., voivodeship, county, commune).",
    inputSchema := [("sort", sortOrderSchema), ("lang", languageSchema)] },
  { name := "get_aggregate",
    description := "Get details of a specific aggregation level by ID.",
    inputSchema := [("id", .number [.int] (some "Aggregation level ID")),
                    ("lang", languageSchema)] },
  { name := "get_attributes",
    description := "Get list of data attributes/flags from BDL API.",
    inputSchema := [("sort", sortOrderSchema), ("lang", languageSchema)] },
  { name := "get_attribute",
    description := "Get details of a specific attribute by ID.",
    inputSchema := [("id", .number [.int] (some "Attribute ID")),
                    ("lang", languageSchema)] },
  { name := "get_levels",
    description := "Get list of territorial levels (e.g., country, voivodeship, county, commune).",
    inputSchema := [("sort", sortOrderSchema), ("lang", languageSchema)] },
  { name := "get_level",
    description := "Get details of a specific territorial level by ID.",
    inputSchema := [("id", .number [.int] (some "Level ID")),
                    ("lang", languageSchema)] },
  { name := "get_measures",
    description := "Get list of measurement units used in BDL data.",
    inputSchema := [("sort", sortOrderSchema), ("lang", languageSchema)] },
  { name := "get_measure",
    description := "Get details of a specific measurement unit by ID.",
    inputSchema := [("id", .number [.int] (some "Measure unit ID")),
                    ("lang", languageSchema)] },
  { name := "get_subjects",
    description := "Get list of statistical subjects/categories. Subjects are organized hierarchically.",
    inputSchema := [("parentId", .optional (.string none) (some "Parent subject ID to get children")),
                    ("lang", languageSchema)] },
  { name := "get_subject",
    description := "Get details of a specific subject by ID.",
    inputSchema := [("id", .string (some "Subject ID (e.g., \"K1\", \"P2354\")")),
                    ("lang", languageSchema)] },
  { name := "search_subjects",
    description := "Search subjects by name.",
    inputSchema := [("name", .string (some "Search term for subject name")),
                    ("lang", languageSchema)] },
  { name := "get_units",
    description := "Get list of territorial units (administrative divisions of Poland).",
    inputSchema := [("level", .optional (.number [.int] none) (some "Territorial level filter")),
                    ("parentId", .optional (.string none) (some "Parent unit ID to get children")),
                    ("name", .optional (.string none) (some "Name filter")),
                    ("sort", sortOrderSchema), ("page", pageSchema),
                    ("pageSize", pageSizeSchema), ("lang", languageSchema)] },
  { name := "get_unit",
    description := "Get details of a specific territorial unit by ID.",
    inputSchema := [("id", .string (some "Unit ID (TERYT code)")),
                    ("lang", languageSchema)] },
  { name := "search_units",
    description := "Search territorial units by name.",
    inputSchema := [("name", .string (some "Search term for unit name")),
                    ("level", .optional (.number [.int] none) (some "Territorial level filter")),
                    ("page", pageSchema), ("pageSize", pageSizeSchema),
                    ("lang", languageSchema)] },
  { name := "get_localities",
    description := "Get list of localities (cities, towns, villages).",
    inputSchema := [("parentId", .optional (.string none) (some "Parent unit ID")),
                    ("name", .optional (.string none) (some "Name filter")),
                    ("year", .optional (.number [.int] none) (some "Year filter")),
                    ("sort", sortOrderSchema), ("page", pageSchema),
                    ("pageSize", pageSizeSchema), ("lang", languageSchema)] },
  { name := "get_locality",
    description := "Get details of a specific locality by ID.",
    inputSchema := [("id", .string (some "Locality ID")),
                    ("year", .optional (.number [.int] none) (some "Year")),
                    ("lang", languageSchema)] },
  { name := "search_localities",
    description := "Search localities by name.",
    inputSchema := [("name", .string (some "Search term for locality name")),
                    ("year", .optional (.number [.int] none) (some "Year filter")),
                    ("page", pageSchema), ("pageSize", pageSizeSchema),
                    ("lang", languageSchema)] },
  { name := "get_variables",
    description := "Get list of statistical variables/indicators.",
    inputSchema := [("subjectId", .optional (.string none) (some "Filter by subject ID")),
                    ("level", .optional (.number [.int] none) (some "Aggregation level filter")),
                    ("year", .optional (.number [.int] none) (some "Year filter")),
                    ("sort", sortOrderSchema), ("page", pageSchema),
                    ("pageSize", pageSizeSchema), ("lang", languageSchema)] },
  { name := "get_variable",
    description := "Get details of a specific variable by ID, including available years.",
    inputSchema := [("id", .number [.int] (some "Variable ID")),
                    ("lang", languageSchema)] },
  { name := "search_variables",
    description := "Search statistical variables by name.",
    inputSchema := [("name", .string (some "Search term for variable name")),
                    ("subjectId", .optional (.string none) (some "Filter by subject ID")),
                    ("level", .optional (.number [.int] none) (some "Aggregation level filter")),
                    ("year", .optional (.number [.int] none) (some "Year filter")),
                    ("page", pageSchema), ("pageSize", pageSizeSchema),
                    ("lang", languageSchema)] },
  { name := "get_data_by_variable",
    description := "Get statistical data for a specific variable across territorial units.",
    inputSchema := [("varId", .number [.int] (some "Variable ID")),
                    ("unitLevel", .optional (.number [.int] none) (some "Territorial level for results")),
                    ("unitParentId", .optional (.string none) (some "Parent unit ID to filter results")),
                    ("year", .optional (.union [.number [.int] none, .array (.number [.int] none) none]) (some "Year or array of years")),
                    ("page", pageSchema), ("pageSize", pageSizeSchema),
                    ("lang", languageSchema)] },
  { name := "get_data_by_unit",
    description := "Get statistical data for a specific territorial unit.",
    inputSchema := [("unitId", .string (some "Unit ID (TERYT code)")),
                    ("varId", .optional (.union [.number [.int] none, .array (.number [.int] none) none]) (some "Variable ID or array of variable IDs")),
                    ("year", .optional (.union [.number [.int] none, .array (.number [.int] none) none]) (some "Year or array of years")),
                    ("page", pageSchema), ("pageSize", pageSizeSchema),
                    ("lang", languageSchema)] },
  { name := "get_locality_data_by_variable",
    description := "Get locality-level statistical data for a specific variable.",
    inputSchema := [("varId", .number [.int] (some "Variable ID")),
                    ("unitParentId", .optional (.string none) (some "Parent unit ID to filter results")),
                    ("year", .optional (.number [.int] none) (some "Year")),
                    ("page", pageSchema), ("pageSize", pageSizeSchema),
                    ("lang", languageSchema)] },
  { name := "get_locality_data_by_unit",
    description := "Get locality-level statistical data for a specific unit.",
    inputSchema := [("unitId", .string (some "Unit ID")),
                    ("varId", .optional (.union [.number [.int] none, .array (.number [.int] none) none]) (some "Variable ID or array of variable IDs")),
                    ("year", .optional (.number [.int] none) (some "Year")),
                    ("page", pageSchema), ("pageSize", pageSizeSchema),
                    ("lang", languageSchema)] },
  { name := "get_years",
    description := "Get list of available years in BDL database.",
    inputSchema := [("lang", languageSchema)] },
  { name := "get_year",
    description := "Get details of a specific year.",
    inputSchema := [("id", .number [.int] (some "Year (e.g., 2023)")),
                    ("lang", languageSchema)] },
  { name := "get_api_version",
    description := "Get BDL API version information.",
    inputSchema := [] }
]

/-- Own-property registry lookup: `tools[name]` for a registry name. -/
def findTool (name : String) : Option ToolSpec :=
  tools.find? (fun t => t.name = name)

/-- Own-property names of `Object.prototype`, inherited by every plain
object literal such as `tools`. -/
def protoPropNames : List String :=
  ["constructor", "hasOwnProperty", "isPrototypeOf", "propertyIsEnumerable",
   "toLocaleString", "toString", "valueOf", "__proto__", "__defineGetter__",
   "__defineSetter__", "__lookupGetter__", "__lookupSetter__"]

/-- The registry membership test `name in tools` of `mcp-server.ts`: the
JavaScript `in` operator walks the prototype chain, so it is true both
for an own key (a registry entry) and for a property inherited from
`Object.prototype`. -/
def inTools (name : String) : Bool :=
  (findTool name).isSome || protoPropNames.contains name

/-- A Tool Execution Result (`CallToolResult` in `mcp-server.ts`,
`ToolResult` in `tool-handler.ts`): textual content items plus the error
flag. The flag is absent on the wire when false; `ToolResult.toJs` below
renders that. -/
structure ToolResult where
  content : List String
  isError : Bool

/-- Wire form of a Tool Execution Result: each content item is a
`type: text` object; the `isError` key is written only when set,
matching the object literals in the sources. -/
def ToolResult.toJs (r : ToolResult) : JsVal :=
  .obj ([("content", .arr (r.content.map fun t =>
      .obj [("type", .str "text"), ("text", .str t)]))]
    ++ (if r.isError then [("isError", .bool true)] else []))

/-- The data-access collaborator: `ToolHandler.callTool` dispatching into
`BDLClient`. It either resolves with a serializable result or fails with
a descriptive message; the core treats both outcomes as a black box, so it is a
parameter of the development. -/
def Executor : Type := String → JsVal → Except String JsVal

/-- Embedding of `ToolHandler.execute` from `tool-handler.ts`: run the
collaborator, serialize a success, catch a failure into an error-flagged
result whose text carries the failure detail. -/
def toolExecute (exec : Executor) (toolName : String) (args : JsVal) : ToolResult :=
  match exec toolName args with
  | .ok result => { content := [stringify result], isError := false }
  | .error e => { content := ["Error: " ++ e], isError := true }

/-- Body of `MCPServer.handleCallTool` from `mcp-server.ts` after the
destructuring of `params`. The `!(name in tools)` check walks the
prototype chain, so a prototype-inherited name such as `toString` skips
the unknown-tool branch; `tools[name]` then yields the inherited
function, whose `inputSchema` is `undefined`, and reading `safeParse` on
it throws a TypeError (its engine-specific message is abbreviated here).
A registry name proceeds to schema validation and execution. -/
def handleCallToolNamed (exec : Executor) (name : String) (args : JsVal) :
    Except String ToolResult :=
  if !(inTools name) then
    .ok { content := ["Unknown tool: " ++ name], isError := true }
  else
    match findTool name with
    | some tool =>
      match safeParse (.object tool.inputSchema) args with
      | .error e => .ok { content := ["Invalid arguments: " ++ e], isError := true }
      | .ok data => .ok (toolExecute exec name data)
    | none => .error "Cannot read properties of undefined"

/-- The destructuring default for `arguments`: an absent (undefined)
value becomes the empty object, any other value passes through. -/
def argsDefault (v : JsVal) : JsVal :=
  match v with
  | .undef => .obj []
  | v => v

/-- Embedding of `MCPServer.handleCallTool`: `params` is destructured as
`const (name, arguments: args = \x7b\x7d) = params`, which throws on
`null` or `undefined` and otherwise reads the two properties, applying
`argsDefault` to `arguments`; the tool name is read as a property key. -/
def handleCallToolE (exec : Executor) (params : JsVal) : Except String ToolResult :=
  match params with
  | .undef => .error "Cannot destructure parameters"
  | .null => .error "Cannot destructure parameters"
  | p => handleCallToolNamed exec (propKey (getField p "name"))
           (argsDefault (getField p "arguments"))

/-- Result of `MCPServer.handleInitialize`: fixed protocol version,
capability set and server identity (`SERVER_INFO` in `index.ts`). -/
def initResult : JsVal :=
  .obj [("protocolVersion", .str "2024-11-05"),
        ("capabilities", .obj [("tools", .obj [])]),
        ("serverInfo", .obj [("name", .str "bdl-mcp-server"),
                             ("version", .str "1.0.0")])]

/-- Result of `MCPServer.handleListTools`: every registry entry with its
name, description and translated input schema, in registry order. -/
def listToolsResult : JsVal :=
  .obj [("tools", .arr (tools.map fun t =>
    .obj [("name", .str t.name), ("description", .str t.description),
          ("inputSchema", zodToJsonSchema t.inputSchema)]))]

/-- Embedding of `MCPServer.processMethod`: the method switch. A
non-string method matches no case and falls to the default throw, whose
message interpolates the value. -/
def processMethod (exec : Executor) (method : JsVal) (params : JsVal) :
    Except String JsVal :=
  match method with
  | .str "initialize" => .ok initResult
  | .str "tools/list" => .ok listToolsResult
  | .str "tools/call" => (handleCallToolE exec params).map ToolResult.toJs
  | .str "ping" => .ok (.obj [])
  | .str "notifications/initialized" => .ok (.obj [])
  | m => .error ("Unknown method: " ++ propKey m)

/-- A decoded request as `MCPServer.handleRequest` receives it: the guard
`isJSONRPCRequest` only checks the protocol tag and the presence of
`method`, so `id` may be absent (`undef`) and `method` may be any value. -/
structure JSONRPCRequest where
  id : JsVal
  method : JsVal
  params : JsVal

/-- The error object of a response envelope. -/
structure RpcErrorObj where
  code : Int
  message : String

/-- Response envelope of `mcp-server.ts`. -/
structure JSONRPCResponse where
  id : JsVal
  result : Option JsVal
  error : Option RpcErrorObj

/-- Embedding of `MCPServer.handleRequest`: dispatch, wrapping a resolved
value in `result` and any thrown fault in a `-32603` error object with
the same identifier. -/
def handleRequest (exec : Executor) (req : JSONRPCRequest) : JSONRPCResponse :=
  match processMethod exec req.method req.params with
  | .ok r => { id := req.id, result := some r, error := none }
  | .error msg => { id := req.id, result := none,
                    error := some { code := -32603, message := msg } }

/-- Wire form of a response: the literal objects in `mcp-server.ts` carry
`jsonrpc`, `id` and exactly one of `result` or `error`. -/
def respToJs (r : JSONRPCResponse) : JsVal :=
  .obj ([("jsonrpc", .str "2.0"), ("id", r.id)]
    ++ (match r.result with | some v => [("result", v)] | none => [])
    ++ (match r.error with
        | some e => [("error", .obj [("code", .num (e.code : Rat)),
                                     ("message", .str e.message)])]
        | none => []))

/-- Embedding of `isJSONRPCRequest` from `index.ts`: the value is an
object (JSON arrays and primitives carry no such keys), its `jsonrpc`
property strict-equals the string `2.0`, and a `method` key is present. -/
def isJSONRPCRequest (v : JsVal) : Bool :=
  match v with
  | .obj fields =>
    (match lookupField fields "jsonrpc" with
     | .str s => s = "2.0"
     | _ => false) && hasKeyF fields "method"
  | _ => false

/-- The request fields `MCPServer.handleRequest` reads from a value that
passed `isJSONRPCRequest`. -/
def toRequest (v : JsVal) : JSONRPCRequest :=
  { id := getField v "id", method := getField v "method",
    params := getField v "params" }

/-- The Invalid-Request response literal of `index.ts` (both the batch
member case and the single non-request case): identifier `null`,
code `-32600`. -/
def invalidRequestJs : JsVal :=
  .obj [("jsonrpc", .str "2.0"), ("id", .null),
        ("error", .obj [("code", .num (-32600 : Int)),
                        ("message", .str "Invalid Request")])]

/-- The catch-all response literal of `handleMCP`: identifier `null`,
code `-32700`, message starting with `Parse error: `. -/
def parseErrorJs (msg : String) : JsVal :=
  .obj [("jsonrpc", .str "2.0"), ("id", .null),
        ("error", .obj [("code", .num (-32700 : Int)),
                        ("message", .str ("Parse error: " ++ msg))])]

/-- An open streaming channel as stored in `sseConnections`: a writer
whose next write either resolves or rejects with a message. The write
outcome is the abstraction of the fallible `writer.write` call. -/
structure Channel where
  writeOk : Bool
  failMsg : String

/-- The outcome of one `handleMCP` invocation: HTTP body and status, the
SSE messages successfully written, and the session table afterward (the
function body contains no insert or delete on `sseConnections`). -/
structure McpOutcome where
  body : JsVal
  status : Nat
  pushes : List String
  table : List (String × Channel)

/-- Embedding of `createSSEMessage` from `mcp-server.ts`. -/
def createSSEMessageStr (event : String) (data : JsVal) : String :=
  "event: " ++ event ++ "\ndata: " ++ stringify data ++ "\n\n"

/-- Session table lookup (`sseConnections.has` / `sseConnections.get`). -/
def lookupTable : List (String × Channel) → String → Option Channel
  | [], _ => none
  | (k, c) :: rest, key => if k = key then some c else lookupTable rest key

/-- One batch member of `handleMCP`: a structurally valid member is
dispatched, an invalid one becomes the Invalid-Request literal. -/
def handleOne (exec : Executor) (req : JsVal) : JsVal :=
  if isJSONRPCRequest req then respToJs (handleRequest exec (toRequest req))
  else invalidRequestJs

/-- Embedding of `handleMCP` from `index.ts` for a POST whose body either
failed to decode (`.error msg`, from `request.json()` throwing) or
decoded to a value. The batch branch maps every member independently; the
single branch dispatches, then, when the session header names an open
channel, awaits the SSE write whose rejection propagates to the outer
catch and is rendered as the code `-32700` literal. -/
def handleMCP (exec : Executor) (table : List (String × Channel))
    (sessionHeader : Option String) (decoded : Except String JsVal) : McpOutcome :=
  match decoded with
  | .error msg => { body := parseErrorJs msg, status := 400, pushes := [], table := table }
  | .ok body =>
    match body with
    | .arr reqs =>
      { body := .arr (reqs.map (handleOne exec)), status := 200,
        pushes := [], table := table }
    | b =>
      if isJSONRPCRequest b then
        let resp := respToJs (handleRequest exec (toRequest b))
        match sessionHeader with
        | some sid =>
          (match lookupTable table sid with
           | some ch =>
             if ch.writeOk then
               { body := resp, status := 200,
                 pushes := [createSSEMessageStr "message" resp], table := table }
             else
               { body := parseErrorJs ch.failMsg, status := 400,
                 pushes := [], table := table }
           | none =>
             { body := resp, status := 200, pushes := [], table := table })
        | none => { body := resp, status := 200, pushes := [], table := table }
      else
        { body := invalidRequestJs, status := 400, pushes := [], table := table }

/-- Whether a value is a JS object, the shape of every sub-document the
translator emits. -/
def JsVal.isObj : JsVal → Bool
  | .obj _ => true
  | _ => false

/-- Key presence on a document. -/
def JsVal.hasKey : JsVal → String → Bool
  | .obj fields, k => hasKeyF fields k
  | _, _ => false

/-- The `required` list of a discovery document, empty when the key is
absent. -/
def docRequiredList (doc : JsVal) : List JsVal :=
  match getField doc "required" with
  | .arr xs => xs
  | _ => []

/-- A concrete always-succeeding executor used to instantiate theorems. -/
def demoExec : Executor := fun _ _ => .ok (.obj [("v", .str "x")])

/-- A concrete always-failing executor used to instantiate theorems. -/
def demoFailExec : Executor := fun _ _ => .error "BDL API error: 500"

/-- A concrete valid single request used to instantiate theorems. -/
def pingReqJs : JsVal :=
  .obj [("jsonrpc", .str "2.0"), ("id", .num 1), ("method", .str "ping")]

/-- Every translated sub-document is a JSON object; in particular the
translation never fails on any kind. Proved by structural recursion
following the branch structure of `zodTypeToJsonSchema`. -/
theorem zodTypeToJsonSchema_isObj : (t : ZodType) → (zodTypeToJsonSchema t).isObj = true
  | .string _ => by simp [zodTypeToJsonSchema, JsVal.isObj]
  | .number _ _ => by simp [zodTypeToJsonSchema, JsVal.isObj]
  | .boolean _ => by simp [zodTypeToJsonSchema, JsVal.isObj]
  | .enum _ _ => by simp [zodTypeToJsonSchema, JsVal.isObj]
  | .union _ => by simp [zodTypeToJsonSchema, JsVal.isObj]
  | .array _ _ => by simp [zodTypeToJsonSchema, JsVal.isObj]
  | .optional t _ => by
    have ih := zodTypeToJsonSchema_isObj t
    simpa [zodTypeToJsonSchema] using ih
  | .nullable t _ => by
    have ih := zodTypeToJsonSchema_isObj t
    simpa [zodTypeToJsonSchema] using ih
  | .object _ => by simp [zodTypeToJsonSchema, objectDoc, JsVal.isObj]
  | .other => by simp [zodTypeToJsonSchema, JsVal.isObj]

/-- C8: schema translation is total and never fails: every zod kind,
including any kind not among the recognized ones, translates to a
sub-document (a JSON object), and the unrecognized kind falls back to
the document with `type: string`. -/
theorem translation_total_with_string_fallback :
    zodTypeToJsonSchema ZodType.other = .obj [("type", .str "string")] ∧
    ∀ t : ZodType, (zodTypeToJsonSchema t).isObj = true := by
  constructor
  · simp [zodTypeToJsonSchema]
  · exact zodTypeToJsonSchema_isObj

/-- C7: the schema translator is a pure function of the schema tree:
equal argument schemas yield byte-identical serialized discovery
documents on any two calls. -/
theorem translator_deterministic (s₁ s₂ : List (String × ZodType)) (h : s₁ = s₂) :
    stringify (zodToJsonSchema s₁) = stringify (zodToJsonSchema s₂) := by
  rw [h]

/-- Witness for C7 at a concrete schema. -/
theorem translator_deterministic_witness :
    stringify (zodToJsonSchema [("lang", languageSchema)]) =
      stringify (zodToJsonSchema [("lang", languageSchema)]) :=
  translator_deterministic [("lang", languageSchema)] [("lang", languageSchema)] rfl

/-- C10: on the batch (array) path, `handleMCP` writes nothing to any
streaming channel, returns the session table unchanged, and produces a
body that does not depend on the session table or the session header. -/
theorem batch_path_ignores_sessions (exec : Executor)
    (t₁ t₂ : List (String × Channel)) (hdr₁ hdr₂ : Option String)
    (reqs : List JsVal) :
    (handleMCP exec t₁ hdr₁ (.ok (.arr reqs))).table = t₁ ∧
    (handleMCP exec t₁ hdr₁ (.ok (.arr reqs))).pushes = [] ∧
    (handleMCP exec t₁ hdr₁ (.ok (.arr reqs))).body =
      (handleMCP exec t₂ hdr₂ (.ok (.arr reqs))).body :=
  ⟨rfl, rfl, rfl⟩

/-- C2 is violated by the code: with an open channel whose write fails,
a valid single request with a matching session token is answered by the
catch-all `-32700` parse-error envelope with HTTP status 400, not by the
normal synchronous response, because the rejected `writer.write` inside
the `try` block propagates to the outer `catch`. -/
theorem write_failure_faults_sync_path :
    (handleMCP demoExec [("s1", { writeOk := false, failMsg := "stream closed" })]
        (some "s1") (.ok pingReqJs)).body = parseErrorJs "stream closed" ∧
    (handleMCP demoExec [("s1", { writeOk := false, failMsg := "stream closed" })]
        (some "s1") (.ok pingReqJs)).status = 400 ∧
    stringify (handleMCP demoExec [("s1", { writeOk := false, failMsg := "stream closed" })]
        (some "s1") (.ok pingReqJs)).body ≠
      stringify (respToJs (handleRequest demoExec (toRequest pingReqJs))) := by
  refine ⟨rfl, rfl, ?_⟩
  decide

/-- C4 is violated by the code: this input is not a valid envelope (no
protocol tag) yet carries an extractable identifier `7`, and the emitted
Invalid-Request response still has the `null` identifier. -/
theorem invalid_request_id_not_extracted :
    getField (JsVal.obj [("id", .num 7), ("method", .str "foo")]) "id" = .num 7 ∧
    isJSONRPCRequest (.obj [("id", .num 7), ("method", .str "foo")]) = false ∧
    getField (handleMCP demoExec [] none
      (.ok (.obj [("id", .num 7), ("method", .str "foo")]))).body "id" = .null :=
  ⟨rfl, rfl, rfl⟩

/-- C4 (amended): for every structurally invalid envelope the emitted
Invalid-Request response (code `-32600`) always carries the `null`
identifier, whether or not an identifier is extractable from the input;
the same literal is emitted for invalid batch members. -/
theorem invalid_envelope_null_id (exec : Executor)
    (table : List (String × Channel)) (hdr : Option String) (b : JsVal)
    (hinv : isJSONRPCRequest b = false) (hnarr : ∀ xs, b ≠ .arr xs) :
    (handleMCP exec table hdr (.ok b)).body = invalidRequestJs ∧
    getField invalidRequestJs "id" = .null ∧
    getField (getField invalidRequestJs "error") "code" = .num (-32600 : Int) ∧
    (∀ r : JsVal, isJSONRPCRequest r = false → handleOne exec r = invalidRequestJs) := by
  refine ⟨?_, rfl, rfl, ?_⟩
  · cases b with
    | arr xs => exact absurd rfl (hnarr xs)
    | undef => simp [handleMCP, hinv]
    | null => simp [handleMCP, hinv]
    | bool v => simp [handleMCP, hinv]
    | num v => simp [handleMCP, hinv]
    | str v => simp [handleMCP, hinv]
    | obj fields => simp [handleMCP, hinv]
  · intro r hr
    simp [handleOne, hr]

/-- Witness for C4 (amended) at the counterexample input. -/
theorem invalid_envelope_null_id_witness :
    (handleMCP demoExec [] none
      (.ok (.obj [("id", .num 7), ("method", .str "foo")]))).body = invalidRequestJs :=
  (invalid_envelope_null_id demoExec [] none (.obj [("id", .num 7), ("method", .str "foo")])
    rfl (fun _ h => JsVal.noConfusion h)).1

/-- C5: a structurally valid request whose method name is none of the
five supported ones is answered with a populated error object of code
`-32603`, no result, and the identifier of the request. -/
theorem unknown_method_internal_error (exec : Executor) (id params : JsVal) (m : String)
    (h : m ∉ (["initialize", "tools/list", "tools/call", "ping",
               "notifications/initialized"] : List String)) :
    handleRequest exec { id := id, method := .str m, params := params } =
      { id := id, result := none,
        error := some { code := -32603, message := "Unknown method: " ++ m } } := by
  simp only [List.mem_cons, List.not_mem_nil, or_false, not_or] at h
  obtain ⟨h1, h2, h3, h4, h5⟩ := h
  have hm : processMethod exec (.str m) params = .error ("Unknown method: " ++ m) := by
    simp only [processMethod]
    split <;> simp_all [propKey]
  simp [handleRequest, hm]

/-- Witness for C5 at a concrete unsupported method name. -/
theorem unknown_method_internal_error_witness :
    handleRequest demoExec { id := .num 3, method := .str "bogus/method", params := .null } =
      { id := .num 3, result := none,
        error := some { code := -32603, message := "Unknown method: " ++ "bogus/method" } } :=
  unknown_method_internal_error demoExec (.num 3) .null "bogus/method" (by decide)

/-- C3: a batch of N members is answered by the array of the N per-member
responses in input order, each member processed independently of its
siblings (member i of the output depends only on member i of the input),
with every invalid member answered by the emitted Invalid-Request literal
and every valid member by its own dispatch result. -/
theorem batch_pointwise_responses (exec : Executor)
    (table : List (String × Channel)) (hdr : Option String) (reqs : List JsVal) :
    (handleMCP exec table hdr (.ok (.arr reqs))).body = .arr (reqs.map (handleOne exec)) ∧
    (reqs.map (handleOne exec)).length = reqs.length ∧
    (∀ i (hi : i < reqs.length),
      (reqs.map (handleOne exec))[i]? = some (handleOne exec (reqs.get ⟨i, hi⟩)) ∧
      (isJSONRPCRequest (reqs.get ⟨i, hi⟩) = false →
        (reqs.map (handleOne exec))[i]? = some invalidRequestJs) ∧
      (isJSONRPCRequest (reqs.get ⟨i, hi⟩) = true →
        (reqs.map (handleOne exec))[i]? =
          some (respToJs (handleRequest exec (toRequest (reqs.get ⟨i, hi⟩)))))) := by
  refine ⟨rfl, List.length_map reqs (handleOne exec), ?_⟩
  intro i hi
  have hbase : (reqs.map (handleOne exec))[i]? = some (handleOne exec (reqs.get ⟨i, hi⟩)) := by
    rw [List.getElem?_map, List.getElem?_eq_getElem hi]
    simp [List.get_eq_getElem]
  refine ⟨hbase, ?_, ?_⟩
  · intro hfalse
    rw [hbase]
    rw [List.get_eq_getElem] at hfalse
    simp [handleOne, hfalse]
  · intro htrue
    rw [hbase]
    rw [List.get_eq_getElem] at htrue
    simp [handleOne, htrue]

/-- Witness for C3 on a concrete two-member batch with one valid and one
invalid member. -/
theorem batch_pointwise_responses_witness :
    (handleMCP demoExec [] none (.ok (.arr [pingReqJs, .num 5]))).body =
      .arr ([pingReqJs, .num 5].map (handleOne demoExec)) ∧
    ([pingReqJs, JsVal.num 5].map (handleOne demoExec))[1]? = some invalidRequestJs :=
  ⟨(batch_pointwise_responses demoExec [] none [pingReqJs, .num 5]).1,
   ((batch_pointwise_responses demoExec [] none [pingReqJs, .num 5]).2.2 1
     (by decide)).2.1 rfl⟩

/-- C1 is violated by the code: `toString` is absent from the registry,
yet `"toString" in tools` is true through the prototype chain, so the
unknown-tool branch is skipped, the `inputSchema` access on the
inherited function is `undefined`, reading `safeParse` on it throws, and
the caller receives a `-32603` RPC error envelope instead of a
successful response with an error-flagged result. -/
theorem prototype_name_yields_rpc_error :
    findTool "toString" = none ∧
    handleRequest demoExec
      { id := .num 1, method := .str "tools/call",
        params := .obj [("name", .str "toString")] } =
      { id := .num 1, result := none,
        error := some { code := -32603,
                        message := "Cannot read properties of undefined" } } :=
  ⟨rfl, rfl⟩

/-- C1 (amended): for a `tools/call` request, a supplied name failing
the prototype-chain-aware registry membership test, an argument schema
violation, and an executor failure each produce a successful RPC
response: `error` is absent and `result` is an error-flagged Tool
Execution Result naming the unknown tool, describing the violation, or
carrying the executor failure detail. A name absent from the registry
that is an inherited Object-prototype property name instead surfaces as
a `-32603` RPC error envelope — the thrown TypeError is still caught,
never an unhandled fault. -/
theorem tool_level_failures_error_flagged (exec : Executor) (id : JsVal)
    (fields : List (String × JsVal)) :
    (inTools (propKey (lookupField fields "name")) = false →
      handleRequest exec { id := id, method := .str "tools/call", params := .obj fields } =
        { id := id,
          result := some (ToolResult.toJs
            { content := ["Unknown tool: " ++ propKey (lookupField fields "name")],
              isError := true }),
          error := none }) ∧
    (∀ tool e, findTool (propKey (lookupField fields "name")) = some tool →
      safeParse (.object tool.inputSchema)
          (argsDefault (lookupField fields "arguments")) = .error e →
      handleRequest exec { id := id, method := .str "tools/call", params := .obj fields } =
        { id := id,
          result := some (ToolResult.toJs
            { content := ["Invalid arguments: " ++ e], isError := true }),
          error := none }) ∧
    (∀ tool data msg, findTool (propKey (lookupField fields "name")) = some tool →
      safeParse (.object tool.inputSchema)
          (argsDefault (lookupField fields "arguments")) = .ok data →
      exec (propKey (lookupField fields "name")) data = .error msg →
      handleRequest exec { id := id, method := .str "tools/call", params := .obj fields } =
        { id := id,
          result := some (ToolResult.toJs
            { content := ["Error: " ++ msg], isError := true }),
          error := none }) ∧
    (findTool (propKey (lookupField fields "name")) = none →
      protoPropNames.contains (propKey (lookupField fields "name")) = true →
      handleRequest exec { id := id, method := .str "tools/call", params := .obj fields } =
        { id := id, result := none,
          error := some { code := -32603,
                          message := "Cannot read properties of undefined" } }) := by
  have key : ∀ r : ToolResult,
      handleCallToolNamed exec (propKey (lookupField fields "name"))
        (argsDefault (lookupField fields "arguments")) = .ok r →
      handleRequest exec { id := id, method := .str "tools/call", params := .obj fields } =
        { id := id, result := some r.toJs, error := none } := by
    intro r hr
    simp [handleRequest, processMethod, handleCallToolE, getField, hr, Except.map]
  have keyErr : ∀ e : String,
      handleCallToolNamed exec (propKey (lookupField fields "name"))
        (argsDefault (lookupField fields "arguments")) = .error e →
      handleRequest exec { id := id, method := .str "tools/call", params := .obj fields } =
        { id := id, result := none,
          error := some { code := -32603, message := e } } := by
    intro e hr
    simp [handleRequest, processMethod, handleCallToolE, getField, hr, Except.map]
  refine ⟨?_, ?_, ?_, ?_⟩
  · intro hnone
    exact key _ (by simp [handleCallToolNamed, hnone])
  · intro tool e hfind hparse
    have hin : inTools (propKey (lookupField fields "name")) = true := by
      simp [inTools, hfind]
    exact key _ (by simp [handleCallToolNamed, hin, hfind, hparse])
  · intro tool data msg hfind hparse hexec
    have hin : inTools (propKey (lookupField fields "name")) = true := by
      simp [inTools, hfind]
    exact key _ (by simp [handleCallToolNamed, hin, hfind, hparse, toolExecute, hexec])
  · intro hnone hproto
    have hmem : propKey (lookupField fields "name") ∈ protoPropNames :=
      List.mem_of_elem_eq_true hproto
    exact keyErr _ (by simp [handleCallToolNamed, inTools, hnone, hproto, hmem])

/-- Witness for C1 (amended): the three error-flagged failure kinds at
concrete requests — an unregistered name, a call to `get_year` missing
its required integer `id`, a failing executor behind `get_api_version` —
and the prototype-inherited name `toString` answered by the `-32603`
envelope. -/
theorem tool_level_failures_error_flagged_witness :
    (handleRequest demoExec
      { id := .num 1, method := .str "tools/call",
        params := .obj [("name", .str "no_such_tool")] } =
      { id := .num 1,
        result := some (ToolResult.toJs
          { content := ["Unknown tool: " ++ "no_such_tool"], isError := true }),
        error := none }) ∧
    (handleRequest demoExec
      { id := .num 2, method := .str "tools/call",
        params := .obj [("name", .str "get_year")] } =
      { id := .num 2,
        result := some (ToolResult.toJs
          { content := ["Invalid arguments: " ++ "id: Required"], isError := true }),
        error := none }) ∧
    (handleRequest demoFailExec
      { id := .num 3, method := .str "tools/call",
        params := .obj [("name", .str "get_api_version")] } =
      { id := .num 3,
        result := some (ToolResult.toJs
          { content := ["Error: " ++ "BDL API error: 500"], isError := true }),
        error := none }) ∧
    (handleRequest demoExec
      { id := .num 4, method := .str "tools/call",
        params := .obj [("name", .str "toString")] } =
      { id := .num 4, result := none,
        error := some { code := -32603,
                        message := "Cannot read properties of undefined" } }) := by
  refine ⟨?_, ?_, ?_, ?_⟩
  · have h := (tool_level_failures_error_flagged demoExec (.num 1)
      [("name", .str "no_such_tool")]).1 rfl
    simpa [propKey, lookupField] using h
  · have h := (tool_level_failures_error_flagged demoExec (.num 2)
      [("name", .str "get_year")]).2.1
      { name := "get_year", description := "Get details of a specific year.",
        inputSchema := [("id", .number [.int] (some "Year (e.g., 2023)")),
                        ("lang", languageSchema)] }
      "id: Required"
      rfl
      (by
        show safeParse (.object [("id", .number [.int] (some "Year (e.g., 2023)")),
              ("lang", languageSchema)]) (.obj []) = .error "id: Required"
        simp only [safeParse, parseShape, lookupField, languageSchema, Except.map]
        rfl)
    simpa [propKey, lookupField] using h
  · have h := (tool_level_failures_error_flagged demoFailExec (.num 3)
      [("name", .str "get_api_version")]).2.2.1
      { name := "get_api_version",
        description := "Get BDL API version information.", inputSchema := [] }
      (.obj []) "BDL API error: 500"
      rfl
      (by
        show safeParse (.object []) (.obj []) = .ok (.obj [])
        simp only [safeParse, parseShape, Except.map])
      rfl
    simpa [propKey, lookupField] using h
  · have h := (tool_level_failures_error_flagged demoExec (.num 4)
      [("name", .str "toString")]).2.2.2 rfl rfl
    simpa [propKey, lookupField] using h

mutual

/-- A schema that accepts `undefined` parses it to `undefined`: every
kind either rejects `undefined` or passes it through. -/
theorem safeParse_undef_ok :
    ∀ (t : ZodType) (v : JsVal), safeParse t .undef = .ok v → v = .undef
  | .string _, v => by simp [safeParse]
  | .number _ _, v => by simp [safeParse]
  | .boolean _, v => by simp [safeParse]
  | .enum _ _, v => by simp [safeParse]
  | .union opts, v => fun h => parseFirst_undef_ok opts v (by simpa [safeParse] using h)
  | .array _ _, v => by simp [safeParse]
  | .optional _ _, v => by
    intro h
    simp [safeParse] at h
    exact h.symm
  | .nullable t _, v => fun h => safeParse_undef_ok t v (by simpa [safeParse] using h)
  | .object _, v => by simp [safeParse]
  | .other, v => by
    intro h
    simp [safeParse] at h
    exact h.symm

/-- Union counterpart of `safeParse_undef_ok`, over the option list. -/
theorem parseFirst_undef_ok :
    ∀ (opts : List ZodType) (v : JsVal), parseFirst opts .undef = .ok v → v = .undef
  | [], v => by simp [parseFirst]
  | t :: rest, v => by
    intro h
    simp only [parseFirst] at h
    cases hsp : safeParse t JsVal.undef with
    | ok r =>
      rw [hsp] at h
      simp only [Except.ok.injEq] at h
      exact h ▸ safeParse_undef_ok t r hsp
    | error e =>
      rw [hsp] at h
      exact parseFirst_undef_ok rest v h

end

/-- A shape all of whose fields are optional parses the empty object to
the empty object: every lookup yields `undefined`, every field parser
accepts it, and no key enters the output. -/
theorem parseShape_nil_of_optional :
    ∀ (shape : List (String × ZodType)),
      (∀ kt ∈ shape, (kt.2).isOptional = true) → parseShape shape [] = .ok []
  | [], _ => by simp [parseShape]
  | (k, t) :: rest, h => by
    have ht : t.isOptional = true := h (k, t) (List.mem_cons_self _ _)
    have hrest : parseShape rest [] = .ok [] :=
      parseShape_nil_of_optional rest (fun kt hkt => h kt (List.mem_cons_of_mem _ hkt))
    obtain ⟨w, hw⟩ : ∃ w, safeParse t JsVal.undef = .ok w := by
      unfold ZodType.isOptional at ht
      cases hsp : safeParse t JsVal.undef with
      | ok w => exact ⟨w, rfl⟩
      | error e => rw [hsp] at ht; simp at ht
    have hwu : w = .undef := safeParse_undef_ok t w hw
    subst hwu
    simp [parseShape, lookupField, hw, hrest, hasKeyF, JsVal.isUndef]

/-- C9: a `tools/call` whose params carry no `arguments` key proceeds
with the empty object as the arguments, and for a registered tool all of
whose schema fields are optional, validation of the empty object
succeeds, execution proceeds, and a succeeding executor yields an
unflagged result. -/
theorem omitted_arguments_default_empty (exec : Executor)
    (fields : List (String × JsVal)) (name : String) (tool : ToolSpec)
    (hargs : lookupField fields "arguments" = .undef)
    (hfind : findTool name = some tool)
    (hopt : ∀ kt ∈ tool.inputSchema, (kt.2).isOptional = true) :
    handleCallToolE exec (.obj fields) =
      handleCallToolNamed exec (propKey (lookupField fields "name")) (.obj []) ∧
    safeParse (.object tool.inputSchema) (.obj []) = .ok (.obj []) ∧
    handleCallToolNamed exec name (.obj []) = .ok (toolExecute exec name (.obj [])) ∧
    (∀ v, exec name (.obj []) = .ok v →
      (toolExecute exec name (.obj [])).isError = false) := by
  have hps : parseShape tool.inputSchema [] = .ok [] :=
    parseShape_nil_of_optional tool.inputSchema hopt
  have hsp : safeParse (.object tool.inputSchema) (.obj []) = .ok (.obj []) := by
    simp [safeParse, hps, Except.map]
  have hin : inTools name = true := by
    simp [inTools, hfind]
  refine ⟨?_, hsp, ?_, ?_⟩
  · simp [handleCallToolE, getField, hargs, argsDefault]
  · simp [handleCallToolNamed, hin, hfind, hsp]
  · intro v hv
    simp [toolExecute, hv]

/-- Witness for C9: `get_aggregates`, whose two fields are optional,
called with no arguments under a succeeding executor. -/
theorem omitted_arguments_default_empty_witness :
    handleCallToolE demoExec (.obj [("name", .str "get_aggregates")]) =
      handleCallToolNamed demoExec
        (propKey (lookupField [("name", JsVal.str "get_aggregates")] "name"))
        (.obj []) ∧
    (toolExecute demoExec "get_aggregates" (.obj [])).isError = false := by
  have h := omitted_arguments_default_empty demoExec
    [("name", .str "get_aggregates")] "get_aggregates"
    { name := "get_aggregates",
      description := "Get list of aggregation levels from BDL API. Aggregation levels define territorial groupings (e.g., voivodeship, county, commune).",
      inputSchema := [("sort", sortOrderSchema), ("lang", languageSchema)] }
    rfl rfl (by decide)
  exact ⟨h.1, h.2.2.2 (.obj [("v", .str "x")]) rfl⟩

/-- Membership in the `required` list: a key is collected exactly when it
is declared with a non-optional type. -/
theorem mem_requiredOfShape (shape : List (String × ZodType)) (k : String) :
    k ∈ requiredOfShape shape ↔ ∃ t, (k, t) ∈ shape ∧ t.isOptional = false := by
  induction shape with
  | nil => simp [requiredOfShape]
  | cons kt rest ih =>
    obtain ⟨k0, t0⟩ := kt
    by_cases h : t0.isOptional
    · simp only [requiredOfShape, h, if_true, ih, List.mem_cons]
      constructor
      · rintro ⟨t, ht, hopt⟩
        exact ⟨t, Or.inr ht, hopt⟩
      · rintro ⟨t, ht | ht, hopt⟩
        · cases ht
          rw [h] at hopt
          cases hopt
        · exact ⟨t, ht, hopt⟩
    · rw [Bool.not_eq_true] at h
      simp only [requiredOfShape, h, Bool.false_eq_true, if_false, List.mem_cons, ih]
      constructor
      · rintro (rfl | ⟨t, ht, hopt⟩)
        · exact ⟨t0, Or.inl rfl, h⟩
        · exact ⟨t, Or.inr ht, hopt⟩
      · rintro ⟨t, ht | ht, hopt⟩
        · cases ht
          exact Or.inl rfl
        · exact Or.inr ⟨t, ht, hopt⟩

/-- With pairwise distinct keys, the type declared for a key is unique. -/
theorem type_of_key_unique (shape : List (String × ZodType))
    (hnd : (shape.map Prod.fst).Nodup) (k : String) (t t' : ZodType)
    (ht : (k, t) ∈ shape) (ht' : (k, t') ∈ shape) : t = t' := by
  induction shape with
  | nil => cases ht
  | cons kt rest ih =>
    obtain ⟨k0, t0⟩ := kt
    simp only [List.map_cons, List.nodup_cons] at hnd
    obtain ⟨hk0, hndrest⟩ := hnd
    rcases List.mem_cons.mp ht with h1 | h1
    · rcases List.mem_cons.mp ht' with h2 | h2
      · cases h1; cases h2; rfl
      · cases h1
        exact absurd (List.mem_map_of_mem Prod.fst h2) hk0
    · rcases List.mem_cons.mp ht' with h2 | h2
      · cases h2
        exact absurd (List.mem_map_of_mem Prod.fst h1) hk0
      · exact ih hndrest h1 h2

/-- The `required` entry of the emitted document is exactly the collected
list, and is absent when that list is empty. -/
theorem docRequiredList_zodToJsonSchema (shape : List (String × ZodType)) :
    docRequiredList (zodToJsonSchema shape) = (requiredOfShape shape).map .str := by
  cases hreq : requiredOfShape shape with
  | nil =>
    simp [zodToJsonSchema, objectDoc, docRequiredList, getField, lookupField, hreq]
  | cons a l =>
    simp [zodToJsonSchema, objectDoc, docRequiredList, getField, lookupField, hreq]

/-- C6: in every discovery document the translator emits — at the top
level and, since nested objects are translated by the same function, at
every nesting level — a field name is in the `required` list exactly
when its type is not optional, and the `required` key is omitted
entirely when every field is optional. -/
theorem required_iff_not_optional (shape : List (String × ZodType))
    (hnodup : (shape.map Prod.fst).Nodup) :
    (∀ k t, (k, t) ∈ shape →
      ((JsVal.str k) ∈ docRequiredList (zodToJsonSchema shape) ↔
        t.isOptional = false)) ∧
    ((∀ kt ∈ shape, (kt.2).isOptional = true) →
      (zodToJsonSchema shape).hasKey "required" = false) ∧
    (∀ sub : List (String × ZodType),
      zodTypeToJsonSchema (.object sub) = zodToJsonSchema sub) := by
  refine ⟨?_, ?_, fun _ => rfl⟩
  · intro k t hkt
    rw [docRequiredList_zodToJsonSchema, List.mem_map]
    constructor
    · rintro ⟨a, ha, hstra⟩
      have hak : a = k := by
        injection hstra
      subst hak
      obtain ⟨t', ht', hopt'⟩ := (mem_requiredOfShape shape a).mp ha
      rwa [type_of_key_unique shape hnodup a t t' hkt ht']
    · intro hopt
      exact ⟨k, (mem_requiredOfShape shape k).mpr ⟨t, hkt, hopt⟩, rfl⟩
  · intro hall
    have hreq : requiredOfShape shape = [] := by
      cases hs : requiredOfShape shape with
      | nil => rfl
      | cons a l =>
        exfalso
        have ha : a ∈ requiredOfShape shape := by rw [hs]; exact List.mem_cons_self a l
        obtain ⟨t, ht, hopt⟩ := (mem_requiredOfShape shape a).mp ha
        rw [hall (a, t) ht] at hopt
        cases hopt
    simp [zodToJsonSchema, objectDoc, hreq, JsVal.hasKey, hasKeyF]

/-- Witness for C6 at the `get_locality` schema: `id` is required, `year`
and `lang` are optional, so only `id` is in the required list. -/
theorem required_iff_not_optional_witness :
    ((JsVal.str "id") ∈ docRequiredList (zodToJsonSchema
        [("id", .string (some "Locality ID")),
         ("year", .optional (.number [.int] none) (some "Year")),
         ("lang", languageSchema)]) ↔
      (ZodType.string (some "Locality ID")).isOptional = false) ∧
    ((JsVal.str "year") ∈ docRequiredList (zodToJsonSchema
        [("id", .string (some "Locality ID")),
         ("year", .optional (.number [.int] none) (some "Year")),
         ("lang", languageSchema)]) ↔
      (ZodType.optional (.number [.int] none) (some "Year")).isOptional = false) :=
  ⟨(required_iff_not_optional _ (by decide)).1 "id" _ (by simp),
   (required_iff_not_optional _ (by decide)).1 "year" _ (by simp)⟩

end BdlMcp
